import Mathlib

/-!
# Verification of the Fake-News-Detection claim-classification pipeline

Shallow embedding of the core of `main_beautiful.py`:

* `IndianNewsVerifier._parse_ai_response`  → `parseAiResponse`
* `IndianNewsVerifier._create_analysis_prompt` → `createAnalysisPrompt`
* `IndianNewsVerifier._create_error_response` → `createErrorResponse`
* `IndianNewsVerifier.verify_news` → `verifyNews`
* the URL branch of `BeautifulUI.render_verification_form` → `renderUrlExtraction`

Python strings are modelled as Lean `String` (a list of unicode code
points, matching Python's `str` indexing/`len` semantics).  Python's
substring test `pat in s` is modelled by `containsSub`, and the single
regular-expression search `re.search(r'CONFIDENCE_SCORE:\s*(\d+)', s)`
by `extractConfidence` (leftmost match of the literal followed by
optional whitespace and a maximal digit run; `\s`/`\d` are modelled over
their ASCII ranges, which covers every input considered here).
External effects (the Gemini model call, the HTTP fetch plus
BeautifulSoup strategies, and `datetime.now`) are passed in explicitly
as oracle parameters.
-/

namespace FakeNews

/-- `leadsList pat s` : does `pat` occur at the very start of `s`?
(character-exact, as Python string comparison). -/
def leadsList : List Char → List Char → Bool
  | [], _ => true
  | _ :: _, [] => false
  | p :: ps, c :: cs => p == c && leadsList ps cs

/-- Number of positions of `s` at which `pat` occurs (used both for the
Python substring test `pat in s` and for occurrence counting). -/
def countOcc (pat : List Char) : List Char → Nat
  | [] => 0
  | c :: cs => (if leadsList pat (c :: cs) then 1 else 0) + countOcc pat cs

/-- Python's `pat in s` for a nonempty literal `pat`. -/
def containsSub (s pat : String) : Bool :=
  countOcc pat.data s.data != 0

/-- Python's `url.startswith(pre)`. -/
def strStarts (s pre : String) : Bool :=
  leadsList pre.data s.data

/-- ASCII range of the regex class `\s`. -/
def isSpaceChar (c : Char) : Bool :=
  c == ' ' || c == '\t' || c == '\n' || c == '\r' || c == '\x0b' || c == '\x0c'

/-- After the literal `CONFIDENCE_SCORE:` has matched, consume `\s*`
greedily and then a maximal nonempty digit run `(\d+)`, returning its
integer value (`int(conf_match.group(1))`). -/
def readNum (s : List Char) : Option Nat :=
  let rest := s.dropWhile isSpaceChar
  let digits := rest.takeWhile Char.isDigit
  if digits.isEmpty then none
  else some (digits.foldl (fun acc c => acc * 10 + (c.toNat - 48)) 0)

/-- The pattern literal of `re.search(r'CONFIDENCE_SCORE:\s*(\d+)', ai_text)`. -/
def confPat : List Char := "CONFIDENCE_SCORE:".data

/-- Leftmost-match search for `CONFIDENCE_SCORE:\s*(\d+)` over a list of
characters: try each position left to right; a position matches when the
literal occurs there followed (after whitespace) by at least one digit. -/
def searchConf : List Char → Option Nat
  | [] => none
  | c :: cs =>
    if leadsList confPat (c :: cs) then
      match readNum ((c :: cs).drop confPat.length) with
      | some n => some n
      | none => searchConf cs
    else searchConf cs

/-- `re.search(r'CONFIDENCE_SCORE:\s*(\d+)', t)` mapped to the extracted
integer, `none` when there is no match. -/
def extractConfidence (t : String) : Option Nat :=
  searchConf t.data

/-- The five verdict statuses.  The Python strings are
`"TRUE"`, `"FALSE"`, `"PARTIALLY_TRUE"` (constructor `PARTLY_TRUE`
below), `"UNVERIFIED"`, `"ERROR"`. -/
inductive Status where
  | TRUE
  | FALSE
  | PARTLY_TRUE
  | UNVERIFIED
  | ERROR
deriving DecidableEq, Repr

/-- The verdict dictionary returned by `_parse_ai_response` /
`_create_error_response`. -/
structure Verdict where
  status : Status
  confidence : Nat
  analysis : String
  timestamp : String
  sources : List String
  success : Bool
deriving DecidableEq, Repr

/-- `AppConfig.TRUSTED_SOURCES` (verbatim; the `�` on the ninth entry is
the replacement character present in the source file). -/
def trustedSources : List String :=
  [ "📺 Times of India - https://timesofindia.indiatimes.com"
  , "📺 NDTV - https://www.ndtv.com"
  , "📺 The Hindu - https://www.thehindu.com"
  , "📺 Indian Express - https://indianexpress.com"
  , "📺 India Today - https://www.indiatoday.in"
  , "📺 Anandabazar Patrika - https://www.anandabazar.com"
  , "📺 The Statesman - https://www.thestatesman.com"
  , "📺 The Telegraph - https://www.telegraphindia.com"
  , "� Alt News (Fact-checker) - https://www.altnews.in"
  , "🔍 Boom Live (Fact-checker) - https://www.boomlive.in"
  , "🔍 The Quint WebQoof - https://www.thequint.com/news/webqoof" ]

/-- The status/seed-confidence extraction block of `_parse_ai_response`
(lines 177–192): the four `in ai_text` tests in priority order; each
match seeds a default confidence; initial state is
`("UNVERIFIED", 50)`. -/
def seedStatusConf (t : String) : Status × Nat :=
  if containsSub t "VERIFICATION_STATUS: TRUE" then (.TRUE, 85)
  else if containsSub t "VERIFICATION_STATUS: FALSE" then (.FALSE, 90)
  else if containsSub t "VERIFICATION_STATUS: PARTIALLY_TRUE" then (.PARTLY_TRUE, 70)
  else if containsSub t "VERIFICATION_STATUS: UNVERIFIED" then (.UNVERIFIED, 30)
  else (.UNVERIFIED, 50)

/-- The confidence-reconciliation block (lines 196–203): when the regex
matches, use the extracted value only when the status-dependent guard
allows it. -/
def reconcile (st : Status) (conf : Nat) (t : String) : Nat :=
  match extractConfidence t with
  | some n =>
    if st = .UNVERIFIED ∧ 50 < n then min n 50
    else if st = .TRUE ∨ st = .FALSE ∨ st = .PARTLY_TRUE then n
    else conf
  | none => conf

/-- The "Ensure logical confidence ranges" block (lines 206–213). -/
def applyFloors (st : Status) (conf : Nat) : Nat :=
  if st = .UNVERIFIED ∧ 50 < conf then 30
  else if st = .TRUE ∧ conf < 60 then 75
  else if st = .FALSE ∧ conf < 70 then 80
  else if st = .PARTLY_TRUE ∧ conf < 50 then 65
  else conf

/-- `IndianNewsVerifier._parse_ai_response(ai_text)`.  The wall-clock
timestamp `datetime.now().strftime(...)` is passed in as `now`.  The
`try/except` wrapper of the Python method cannot fire in this pure
model (no sub-step of the body raises), so the success path is total. -/
def parseAiResponse (t now : String) : Verdict :=
  let st := (seedStatusConf t).1
  let seed := (seedStatusConf t).2
  { status := st
  , confidence := applyFloors st (reconcile st seed t)
  , analysis := t
  , timestamp := now
  , sources := trustedSources.take 4
  , success := true }

/-- `IndianNewsVerifier._create_error_response(error_message)`. -/
def createErrorResponse (msg now : String) : Verdict :=
  { status := .ERROR
  , confidence := 0
  , analysis := "❌ " ++ msg
  , timestamp := now
  , sources := []
  , success := false }

/-- Part of the f-string template of `_create_analysis_prompt` before the
opening quote around `{news_claim}` (verbatim, including the indentation
of the Python source). -/
def promptPreCore : String :=
  "\n        🇮🇳 INDIAN NEWS FACT-CHECK ANALYSIS\n        =====================================\n        \n        You are an expert Indian news fact-checker with deep knowledge of:\n        - Indian politics, government, and current affairs\n        - Indian media landscape and reliable sources\n        - Indian cultural and social context\n        - Common misinformation patterns in India\n        \n        NEWS CLAIM TO ANALYZE:\n        "

/-- Part of the f-string template of `_create_analysis_prompt` after the
closing quote around `{news_claim}` (verbatim). -/
def promptPost : String :=
  "\n        \n        Please provide analysis in this EXACT format:\n        \n        VERIFICATION_STATUS: [TRUE/FALSE/PARTIALLY_TRUE/UNVERIFIED]\n        CONFIDENCE_SCORE: [0-100]\n        \n        DETAILED_ANALYSIS:\n        [Provide thorough explanation of why this claim is true/false]\n        \n        INDIAN_CONTEXT:\n        [Explain relevance to Indian politics, society, current events]\n        \n        EVIDENCE_CHECK:\n        [What evidence supports or contradicts this claim]\n        \n        RECOMMENDED_SOURCES:\n        [List specific Indian news sources to verify this claim]\n        \n        RED_FLAGS:\n        [Any warning signs or suspicious elements in this claim]\n        \n        CONCLUSION:\n        [Final assessment with reasoning]\n        "

/-- `IndianNewsVerifier._create_analysis_prompt(news_claim)`: the
template with the claim substituted verbatim between double quotes. -/
def createAnalysisPrompt (newsClaim : String) : String :=
  promptPreCore ++ "\"" ++ newsClaim ++ "\"" ++ promptPost

/-- The eight section labels the prompt prescribes for the model reply. -/
def sectionLabels : List String :=
  [ "VERIFICATION_STATUS", "CONFIDENCE_SCORE", "DETAILED_ANALYSIS"
  , "INDIAN_CONTEXT", "EVIDENCE_CHECK", "RECOMMENDED_SOURCES"
  , "RED_FLAGS", "CONCLUSION" ]

/-- Outcome of the external call `self.model.generate_content(prompt)`:
either the call raised (`failure e`, with `str(e)` as `e`), or it
returned a reply whose text is `t` (an absent/empty reply is `reply ""`,
which Python's `if not response or not response.text` treats alike). -/
inductive ModelOutcome where
  | failure (e : String)
  | reply (t : String)
deriving DecidableEq, Repr

/-- `IndianNewsVerifier.verify_news(news_claim)`.  `isReady` is
`self.is_ready`; `model` is the oracle for
`self.model.generate_content` (applied to the prompt built from the
claim); `now` is the wall clock. -/
def verifyNews (isReady : Bool) (newsClaim : String)
    (model : String → ModelOutcome) (now : String) : Verdict :=
  if !isReady then createErrorResponse "AI engine not ready" now
  else
    match model (createAnalysisPrompt newsClaim) with
    | .failure e => createErrorResponse ("Analysis failed: " ++ e) now
    | .reply t =>
      if t = "" then createErrorResponse "No response from AI" now
      else parseAiResponse t now

/-! ## URL extraction (the URL branch of `render_verification_form`) -/

/-- Result of the URL-extraction flow: which user-facing path the code
takes.  `noInput` is the silent skip of `if url and url.strip():`;
`invalidUrl` is the `st.warning` for a URL without an `http(s)://`
scheme; `googleNewsFailed` is the dedicated Google-News error path;
`emptyText` is the `"Could not extract meaningful text"` error;
`tooShort` is the `"Extracted text is too short"` error; `ok text` is
the success path, where `text` is the value assigned to `news_text`. -/
inductive ExtractOutcome where
  | noInput
  | invalidUrl
  | googleNewsFailed
  | emptyText
  | tooShort
  | ok (text : String)
deriving DecidableEq, Repr

/-- `extracted_text[:2500]`: Python slicing counts code points, as does
`String.data`. -/
def takeChars (s : String) (n : Nat) : String :=
  ⟨s.data.take n⟩

/-- Lines 884–908: validation of the cleaned extracted text.
`extracted` is the final value of `extracted_text` after the four
strategies and whitespace collapsing (those run on the fetched HTML,
outside this model). -/
def processExtractedText (extracted : String) : ExtractOutcome :=
  if extracted = "" then .emptyText
  else if 80 < extracted.length then .ok (takeChars extracted 2500)
  else .tooShort

/-- The network-dependent data of the URL branch: the landing URL after
Google-News redirect resolution, and the cleaned text the four scraping
strategies produce from the fetched page. -/
structure FetchOracle where
  finalUrl : String
  extracted : String
deriving DecidableEq, Repr

/-- Lines 751–908 of `BeautifulUI.render_verification_form`: the URL
input branch.  The second component records whether a network request
was issued (`session.get`/`requests.get`). -/
def renderUrlExtraction (url : String) (oracle : FetchOracle) :
    ExtractOutcome × Bool :=
  if url.data.all isSpaceChar then (.noInput, false)
  else if !(strStarts url "http://" || strStarts url "https://") then
    (.invalidUrl, false)
  else if containsSub url "news.google.com" then
    if containsSub oracle.finalUrl "news.google.com" then (.googleNewsFailed, true)
    else (processExtractedText oracle.extracted, true)
  else (processExtractedText oracle.extracted, true)

/-! ## Helper lemmas -/

/-- A match of `pat` cannot look past a character `d` that does not
occur in `pat`: the tail after `d` is irrelevant. -/
theorem leads_sentinel (d : Char) :
    ∀ (pat zs ws : List Char), d ∉ pat →
      leadsList pat (zs ++ d :: ws) = leadsList pat (zs ++ [d])
  | [], _, _, _ => rfl
  | p :: ps, [], ws, hd => by
    have hp : (p == d) = false := by
      simp only [beq_eq_false_iff_ne, ne_eq]
      exact fun h => hd (h ▸ List.mem_cons_self p ps)
    simp [leadsList, hp]
  | p :: ps, z :: zs, ws, hd => by
    have hps : d ∉ ps := fun h => hd (List.mem_cons_of_mem p h)
    show (p == z && leadsList ps (zs ++ d :: ws)) = (p == z && leadsList ps (zs ++ [d]))
    rw [leads_sentinel d ps zs ws hps]

/-- Appending a character that does not occur in `pat` does not create a
match at the front. -/
theorem leads_snoc (d : Char) :
    ∀ (pat zs : List Char), d ∉ pat →
      leadsList pat (zs ++ [d]) = leadsList pat zs
  | [], _, _ => rfl
  | p :: ps, [], hd => by
    have hp : (p == d) = false := by
      simp only [beq_eq_false_iff_ne, ne_eq]
      exact fun h => hd (h ▸ List.mem_cons_self p ps)
    simp [leadsList, hp]
  | p :: ps, z :: zs, hd => by
    have hps : d ∉ ps := fun h => hd (List.mem_cons_of_mem p h)
    show (p == z && leadsList ps (zs ++ [d])) = (p == z && leadsList ps zs)
    rw [leads_snoc d ps zs hps]

/-- Occurrence counting splits at a separator character that does not
occur in the pattern: no occurrence can straddle the separator. -/
theorem countOcc_sentinel (d : Char) (pat : List Char) (hd : d ∉ pat) :
    ∀ (xs ys : List Char),
      countOcc pat (xs ++ d :: ys) = countOcc pat (xs ++ [d]) + countOcc pat ys
  | [], ys => by
    have h := leads_sentinel d pat [] ys hd
    simp only [List.nil_append] at h ⊢
    simp [countOcc, h]
  | x :: xs, ys => by
    have h := leads_sentinel d pat (x :: xs) ys hd
    simp only [List.cons_append] at h ⊢
    simp only [countOcc, h, countOcc_sentinel d pat hd xs ys]
    omega

/-- Appending a character that does not occur in a nonempty pattern does
not change its occurrence count. -/
theorem countOcc_snoc (d : Char) (pat : List Char) (hd : d ∉ pat) (hne : pat ≠ []) :
    ∀ xs : List Char, countOcc pat (xs ++ [d]) = countOcc pat xs
  | [] => by
    match pat, hd, hne with
    | p :: ps, hd, _ =>
      have hp : (p == d) = false := by
        simp only [beq_eq_false_iff_ne, ne_eq]
        exact fun h => hd (h ▸ List.mem_cons_self p ps)
      simp [countOcc, leadsList, hp]
  | x :: xs => by
    have h := leads_snoc d pat (x :: xs) hd
    simp only [List.cons_append] at h ⊢
    simp only [countOcc, h, countOcc_snoc d pat hd hne xs]

/-- The five possible results of the status/seed extraction block. -/
theorem seed_cases (t : String) :
    seedStatusConf t = (.TRUE, 85) ∨ seedStatusConf t = (.FALSE, 90) ∨
    seedStatusConf t = (.PARTLY_TRUE, 70) ∨ seedStatusConf t = (.UNVERIFIED, 30) ∨
    seedStatusConf t = (.UNVERIFIED, 50) := by
  unfold seedStatusConf
  split_ifs <;> simp

theorem parse_status (t now : String) :
    (parseAiResponse t now).status = (seedStatusConf t).1 := rfl

theorem parse_conf (t now : String) :
    (parseAiResponse t now).confidence =
      applyFloors (seedStatusConf t).1
        (reconcile (seedStatusConf t).1 (seedStatusConf t).2 t) := rfl

theorem applyFloors_unverified_le (c : Nat) : applyFloors .UNVERIFIED c ≤ 50 := by
  simp only [applyFloors, reduceCtorEq, false_and, if_false, true_and]
  split_ifs <;> omega

theorem applyFloors_true_ge (c : Nat) : 60 ≤ applyFloors .TRUE c := by
  simp only [applyFloors, reduceCtorEq, false_and, if_false, true_and]
  split_ifs <;> omega

theorem applyFloors_false_ge (c : Nat) : 70 ≤ applyFloors .FALSE c := by
  simp only [applyFloors, reduceCtorEq, false_and, if_false, true_and]
  split_ifs <;> omega

theorem applyFloors_partly_ge (c : Nat) : 50 ≤ applyFloors .PARTLY_TRUE c := by
  simp only [applyFloors, reduceCtorEq, false_and, if_false, true_and]
  split_ifs <;> omega

theorem applyFloors_le_100 (st : Status) (c : Nat) (hc : c ≤ 100) :
    applyFloors st c ≤ 100 := by
  unfold applyFloors
  split_ifs <;> omega

theorem applyFloors_unverified_id (c : Nat) (hc : c ≤ 50) :
    applyFloors .UNVERIFIED c = c := by
  simp only [applyFloors, reduceCtorEq, false_and, if_false, true_and]
  split_ifs <;> omega

theorem reconcile_eq_none (st : Status) (c : Nat) (t : String)
    (hex : extractConfidence t = none) : reconcile st c t = c := by
  unfold reconcile
  rw [hex]

theorem reconcile_eq_some (st : Status) (c n : Nat) (t : String)
    (hex : extractConfidence t = some n) :
    reconcile st c t =
      if st = .UNVERIFIED ∧ 50 < n then min n 50
      else if st = .TRUE ∨ st = .FALSE ∨ st = .PARTLY_TRUE then n
      else c := by
  unfold reconcile
  rw [hex]

theorem reconcile_unverified_le (t : String) (c : Nat) (hc : c ≤ 50) :
    reconcile .UNVERIFIED c t ≤ 50 := by
  unfold reconcile
  cases hex : extractConfidence t with
  | none => exact hc
  | some n =>
    simp only [reduceCtorEq, false_or, true_and]
    split_ifs <;> omega

theorem parse_not_error (t now : String) :
    (parseAiResponse t now).status ≠ .ERROR := by
  rw [parse_status]
  rcases seed_cases t with h | h | h | h | h <;> rw [h] <;> simp

set_option maxRecDepth 1000000

/-- The prompt, at the level of character lists: the claim sits between
two double-quote characters. -/
theorem createAnalysisPrompt_data (c : String) :
    (createAnalysisPrompt c).data =
      promptPreCore.data ++ '"' :: (c.data ++ '"' :: promptPost.data) := by
  have hq : ("\"" : String).data = ['"'] := rfl
  show (promptPreCore ++ "\"" ++ c ++ "\"" ++ promptPost).data = _
  simp [String.data_append, hq, List.append_assoc]

/-- Occurrence count of a quote-free label in the full prompt: the
quotes around the claim prevent any occurrence from straddling the
template/claim boundaries. -/
theorem prompt_label_count (c lbl : String)
    (hne : lbl.data ≠ []) (hquo : '"' ∉ lbl.data)
    (hpre : countOcc lbl.data (promptPreCore.data ++ ['"']) = 0)
    (hpost : countOcc lbl.data promptPost.data = 1)
    (hc : countOcc lbl.data c.data = 0) :
    countOcc lbl.data (createAnalysisPrompt c).data = 1 := by
  rw [createAnalysisPrompt_data]
  rw [countOcc_sentinel '"' lbl.data hquo promptPreCore.data
        (c.data ++ '"' :: promptPost.data)]
  rw [countOcc_sentinel '"' lbl.data hquo c.data promptPost.data]
  rw [countOcc_snoc '"' lbl.data hquo hne c.data]
  omega

/-! ## The claims -/

/-- C6 (corrected).  As stated the claim is false: for a claim text that
itself contains a section label, `createAnalysisPrompt` contains that
label more than once (see `C6_counterexample`).  Amended: for every
claim text `c` containing no section label, the prompt contains `c`
verbatim and each of the eight listed labels exactly once (the prompt is
a pure Lean function, hence deterministic by construction). -/
theorem C6_prompt_contains_claim_and_each_label_once (c : String)
    (h : ∀ lbl ∈ sectionLabels, countOcc lbl.data c.data = 0) :
    (∃ x y : List Char, (createAnalysisPrompt c).data = x ++ c.data ++ y) ∧
    ∀ lbl ∈ sectionLabels, countOcc lbl.data (createAnalysisPrompt c).data = 1 := by
  constructor
  · refine ⟨promptPreCore.data ++ ['"'], '"' :: promptPost.data, ?_⟩
    rw [createAnalysisPrompt_data]
    simp [List.append_assoc]
  · intro lbl hm
    simp only [sectionLabels, List.mem_cons, List.not_mem_nil, or_false] at hm
    rcases hm with rfl | rfl | rfl | rfl | rfl | rfl | rfl | rfl <;>
      exact prompt_label_count _ _ (by decide) (by decide) (by decide) (by decide)
        (h _ (by simp [sectionLabels]))

/-- C6, counterexample to the claim as stated: with the claim text
`"CONCLUSION"` the prompt contains the section label `CONCLUSION` twice,
not exactly once. -/
theorem C6_counterexample :
    countOcc ("CONCLUSION" : String).data
      (createAnalysisPrompt "CONCLUSION").data = 2 := by
  decide

/-- C6, witness: a label-free claim text satisfying the amended claim. -/
theorem C6_witness :
    (∀ lbl ∈ sectionLabels,
      countOcc lbl.data ("PM announced a new policy today" : String).data = 0) ∧
    ∀ lbl ∈ sectionLabels,
      countOcc lbl.data (createAnalysisPrompt "PM announced a new policy today").data = 1 :=
  ⟨by decide,
    (C6_prompt_contains_claim_and_each_label_once
      "PM announced a new policy today" (by decide)).2⟩

/-- C1 (corrected).  As stated the claim is false: with no status
literal and no `CONFIDENCE_SCORE` match, the parsed confidence is the
initial default 50, not 30 (30 is seeded only when the literal
`VERIFICATION_STATUS: UNVERIFIED` is present).  Amended: for every raw
reply containing none of the four status literals and with no
`CONFIDENCE_SCORE` match, the parse yields status UNVERIFIED and
confidence 50. -/
theorem C1_no_match_defaults (t now : String)
    (h1 : containsSub t "VERIFICATION_STATUS: TRUE" = false)
    (h2 : containsSub t "VERIFICATION_STATUS: FALSE" = false)
    (h3 : containsSub t "VERIFICATION_STATUS: PARTIALLY_TRUE" = false)
    (h4 : containsSub t "VERIFICATION_STATUS: UNVERIFIED" = false)
    (h5 : extractConfidence t = none) :
    (parseAiResponse t now).status = .UNVERIFIED ∧
    (parseAiResponse t now).confidence = 50 := by
  have hseed : seedStatusConf t = (.UNVERIFIED, 50) := by
    unfold seedStatusConf
    rw [h1, h2, h3, h4]
    simp
  refine ⟨by rw [parse_status, hseed], ?_⟩
  rw [parse_conf, hseed]
  show applyFloors .UNVERIFIED (reconcile .UNVERIFIED 50 t) = 50
  have hr : reconcile .UNVERIFIED 50 t = 50 := by
    unfold reconcile
    rw [h5]
  rw [hr]
  decide

/-- C1, counterexample to the claim as stated: `"hello"` matches no
status literal and no confidence pattern, yet parses to confidence 50,
not 30. -/
theorem C1_counterexample :
    containsSub "hello" "VERIFICATION_STATUS: TRUE" = false ∧
    containsSub "hello" "VERIFICATION_STATUS: FALSE" = false ∧
    containsSub "hello" "VERIFICATION_STATUS: PARTIALLY_TRUE" = false ∧
    containsSub "hello" "VERIFICATION_STATUS: UNVERIFIED" = false ∧
    extractConfidence "hello" = none ∧
    (parseAiResponse "hello" "2025-01-01 00:00:00").status = .UNVERIFIED ∧
    (parseAiResponse "hello" "2025-01-01 00:00:00").confidence = 50 ∧
    (parseAiResponse "hello" "2025-01-01 00:00:00").confidence ≠ 30 := by
  decide

/-- C1, witness for the amended claim at the input `"hello"`. -/
theorem C1_witness :
    extractConfidence "hello" = none ∧
    (parseAiResponse "hello" "2025-01-01 00:00:00").status = .UNVERIFIED ∧
    (parseAiResponse "hello" "2025-01-01 00:00:00").confidence = 50 :=
  ⟨by decide,
    (C1_no_match_defaults "hello" "2025-01-01 00:00:00"
      (by decide) (by decide) (by decide) (by decide) (by decide)).1,
    (C1_no_match_defaults "hello" "2025-01-01 00:00:00"
      (by decide) (by decide) (by decide) (by decide) (by decide)).2⟩

/-- C2 (corrected).  As stated the claim is false: when the status
extraction yields UNVERIFIED and the extracted score is `n ≤ 50`, the
code ignores `n` and keeps the seeded default (the guard only fires for
`n > 50`); see `C2_counterexample`.  Amended: when the status extraction
yields UNVERIFIED and the pattern extracts `n`: if `n > 50` the
confidence is clamped to 50; if `n ≤ 50` the extracted value is ignored
and the confidence keeps its seeded default (30 if the UNVERIFIED
literal is present, otherwise 50). -/
theorem C2_unverified_reconciliation (t now : String) (n : Nat)
    (hst : (seedStatusConf t).1 = .UNVERIFIED)
    (hex : extractConfidence t = some n) :
    (50 < n → (parseAiResponse t now).confidence = 50) ∧
    (n ≤ 50 → (parseAiResponse t now).confidence = (seedStatusConf t).2) ∧
    ((seedStatusConf t).2 = 30 ∨ (seedStatusConf t).2 = 50) := by
  have hseed2 : (seedStatusConf t).2 = 30 ∨ (seedStatusConf t).2 = 50 := by
    rcases seed_cases t with hh | hh | hh | hh | hh <;> rw [hh] at hst ⊢ <;> simp_all
  have hrec : ∀ s : Nat, reconcile .UNVERIFIED s t = if 50 < n then 50 else s := by
    intro s
    rw [reconcile_eq_some _ _ _ _ hex]
    simp only [eq_self_iff_true, true_and, reduceCtorEq, false_or, if_false]
    split_ifs <;> omega
  refine ⟨?_, ?_, hseed2⟩
  · intro hn
    rw [parse_conf, hst, hrec, if_pos hn]
    exact applyFloors_unverified_id 50 (by omega)
  · intro hn
    rw [parse_conf, hst, hrec, if_neg (by omega)]
    rcases hseed2 with hh | hh <;> rw [hh] <;>
      exact applyFloors_unverified_id _ (by omega)

/-- C2, counterexample to the claim as stated: with the UNVERIFIED
literal and `CONFIDENCE_SCORE: 20` (an extracted value ≤ 50), the parsed
confidence is the seeded default 30, not the extracted 20. -/
theorem C2_counterexample :
    (seedStatusConf "VERIFICATION_STATUS: UNVERIFIED CONFIDENCE_SCORE: 20").1 =
      .UNVERIFIED ∧
    extractConfidence "VERIFICATION_STATUS: UNVERIFIED CONFIDENCE_SCORE: 20" =
      some 20 ∧
    (parseAiResponse "VERIFICATION_STATUS: UNVERIFIED CONFIDENCE_SCORE: 20"
      "2025-01-01 00:00:00").confidence = 30 ∧
    (parseAiResponse "VERIFICATION_STATUS: UNVERIFIED CONFIDENCE_SCORE: 20"
      "2025-01-01 00:00:00").confidence ≠ 20 := by
  decide

/-- C2, witness for the amended claim (extracted value 20 ≤ 50 is
ignored, the seeded default 30 stands). -/
theorem C2_witness :
    extractConfidence "VERIFICATION_STATUS: UNVERIFIED CONFIDENCE_SCORE: 20" =
      some 20 ∧
    (parseAiResponse "VERIFICATION_STATUS: UNVERIFIED CONFIDENCE_SCORE: 20"
      "2025-01-01 00:00:00").confidence =
      (seedStatusConf "VERIFICATION_STATUS: UNVERIFIED CONFIDENCE_SCORE: 20").2 :=
  ⟨by decide,
    (C2_unverified_reconciliation
      "VERIFICATION_STATUS: UNVERIFIED CONFIDENCE_SCORE: 20"
      "2025-01-01 00:00:00" 20 (by decide) (by decide)).2.1 (by omega)⟩

/-- C3 (corrected).  As stated the claim is false: for the TRUE, FALSE
and PARTIALLY_TRUE statuses the extracted `CONFIDENCE_SCORE` replaces
the default without any upper clamp, so the confidence can exceed 100
(see `C3_counterexample`).  Amended: the confidence is a nonnegative
integer, and it lies in 0–100 whenever the extracted score (when
present) is at most 100; in particular it is in 0–100 for every reply
without a `CONFIDENCE_SCORE` match. -/
theorem C3_confidence_upper_bound (t now : String)
    (h : ∀ n, extractConfidence t = some n → n ≤ 100) :
    (parseAiResponse t now).confidence ≤ 100 := by
  rw [parse_conf]
  apply applyFloors_le_100
  have hseed2 : (seedStatusConf t).2 ≤ 100 := by
    rcases seed_cases t with hh | hh | hh | hh | hh <;> rw [hh] <;> decide
  cases hex : extractConfidence t with
  | none =>
    rw [reconcile_eq_none _ _ _ hex]
    exact hseed2
  | some n =>
    rw [reconcile_eq_some _ _ _ _ hex]
    have hn := h n hex
    split_ifs <;> omega

/-- C3, counterexample to the claim as stated: a TRUE reply with
`CONFIDENCE_SCORE: 999` parses to confidence 999 > 100. -/
theorem C3_counterexample :
    (parseAiResponse "VERIFICATION_STATUS: TRUE CONFIDENCE_SCORE: 999"
      "2025-01-01 00:00:00").confidence = 999 ∧
    100 < (parseAiResponse "VERIFICATION_STATUS: TRUE CONFIDENCE_SCORE: 999"
      "2025-01-01 00:00:00").confidence := by
  decide

/-- C3, witness for the amended claim at a reply with no score match. -/
theorem C3_witness :
    extractConfidence "no score here" = none ∧
    (parseAiResponse "no score here" "2025-01-01 00:00:00").confidence ≤ 100 :=
  ⟨by decide,
    C3_confidence_upper_bound "no score here" "2025-01-01 00:00:00"
      (by intro n hn; rw [show extractConfidence "no score here" = none from by decide] at hn; cases hn)⟩

/-- C4 (corrected).  The four floor invariants hold post-parse:
UNVERIFIED ⇒ ≤ 50, TRUE ⇒ ≥ 60, FALSE ⇒ ≥ 70, PARTIALLY_TRUE ⇒ ≥ 50.
The parenthetical strengthenings of the claim (TRUE ⇒ ≥ 75,
FALSE ⇒ ≥ 80, PARTIALLY_TRUE ⇒ ≥ 65) are false: the correction fires
only below the floor (see `C4_counterexample`).  Amended: the invariants
are ≤ 50 / ≥ 60 / ≥ 70 / ≥ 50, and 75, 80, 65 are exactly the values
forced when the respective correction fires. -/
theorem C4_post_parse_floor_invariants (t now : String) :
    ((parseAiResponse t now).status = .UNVERIFIED →
      (parseAiResponse t now).confidence ≤ 50) ∧
    ((parseAiResponse t now).status = .TRUE →
      60 ≤ (parseAiResponse t now).confidence) ∧
    ((parseAiResponse t now).status = .FALSE →
      70 ≤ (parseAiResponse t now).confidence) ∧
    ((parseAiResponse t now).status = .PARTLY_TRUE →
      50 ≤ (parseAiResponse t now).confidence) ∧
    (∀ c : Nat, c < 60 → applyFloors .TRUE c = 75) ∧
    (∀ c : Nat, c < 70 → applyFloors .FALSE c = 80) ∧
    (∀ c : Nat, c < 50 → applyFloors .PARTLY_TRUE c = 65) := by
  refine ⟨?_, ?_, ?_, ?_, ?_, ?_, ?_⟩
  · intro h
    rw [parse_status] at h
    rw [parse_conf, h]
    exact applyFloors_unverified_le _
  · intro h
    rw [parse_status] at h
    rw [parse_conf, h]
    exact applyFloors_true_ge _
  · intro h
    rw [parse_status] at h
    rw [parse_conf, h]
    exact applyFloors_false_ge _
  · intro h
    rw [parse_status] at h
    rw [parse_conf, h]
    exact applyFloors_partly_ge _
  · intro c hc
    simp only [applyFloors, reduceCtorEq, false_and, if_false, true_and]
    split_ifs <;> omega
  · intro c hc
    simp only [applyFloors, reduceCtorEq, false_and, if_false, true_and]
    split_ifs <;> omega
  · intro c hc
    simp only [applyFloors, reduceCtorEq, false_and, if_false, true_and]
    split_ifs <;> omega

/-- C4, counterexample to the strengthened floors of the claim as
stated: a TRUE reply with extracted score 60 keeps confidence 60, which
is below the claimed post-correction floor of 75. -/
theorem C4_counterexample :
    (parseAiResponse "VERIFICATION_STATUS: TRUE CONFIDENCE_SCORE: 60"
      "2025-01-01 00:00:00").status = .TRUE ∧
    (parseAiResponse "VERIFICATION_STATUS: TRUE CONFIDENCE_SCORE: 60"
      "2025-01-01 00:00:00").confidence = 60 ∧
    (parseAiResponse "VERIFICATION_STATUS: TRUE CONFIDENCE_SCORE: 60"
      "2025-01-01 00:00:00").confidence < 75 := by
  decide

/-- C4, witness at a TRUE reply. -/
theorem C4_witness :
    (parseAiResponse "VERIFICATION_STATUS: TRUE" "2025-01-01 00:00:00").status =
      .TRUE ∧
    60 ≤ (parseAiResponse "VERIFICATION_STATUS: TRUE"
      "2025-01-01 00:00:00").confidence :=
  ⟨by decide,
    (C4_post_parse_floor_invariants "VERIFICATION_STATUS: TRUE"
      "2025-01-01 00:00:00").2.1 (by decide)⟩

/-- C5 (corrected).  As stated the claim is false: merely containing the
substring `CONFIDENCE_SCORE: 40` does not pin the extracted value — the
regex takes the first full match, e.g. `CONFIDENCE_SCORE: 405` contains
that substring but extracts 405 (see `C5_counterexample`).  Amended: for
every reply containing `VERIFICATION_STATUS: FALSE` but not
`VERIFICATION_STATUS: TRUE`, whose first `CONFIDENCE_SCORE` match
extracts the value 40, the parse yields status FALSE and confidence 80
(floor-corrected from 40 since 40 < 70). -/
theorem C5_false_extracted_40_floor (t now : String)
    (h1 : containsSub t "VERIFICATION_STATUS: TRUE" = false)
    (h2 : containsSub t "VERIFICATION_STATUS: FALSE" = true)
    (hex : extractConfidence t = some 40) :
    (parseAiResponse t now).status = .FALSE ∧
    (parseAiResponse t now).confidence = 80 := by
  have hseed : seedStatusConf t = (.FALSE, 90) := by
    unfold seedStatusConf
    rw [h1, h2]
    simp
  refine ⟨by rw [parse_status, hseed], ?_⟩
  rw [parse_conf, hseed]
  show applyFloors .FALSE (reconcile .FALSE 90 t) = 80
  have hr : reconcile .FALSE 90 t = 40 := by
    unfold reconcile
    rw [hex]
    simp
  rw [hr]
  decide

/-- C5, counterexample to the claim as stated: the reply contains both
required substrings (`CONFIDENCE_SCORE: 40` occurs inside
`CONFIDENCE_SCORE: 405`) yet parses to confidence 405, not 80. -/
theorem C5_counterexample :
    containsSub "VERIFICATION_STATUS: FALSE CONFIDENCE_SCORE: 405"
      "VERIFICATION_STATUS: FALSE" = true ∧
    containsSub "VERIFICATION_STATUS: FALSE CONFIDENCE_SCORE: 405"
      "VERIFICATION_STATUS: TRUE" = false ∧
    containsSub "VERIFICATION_STATUS: FALSE CONFIDENCE_SCORE: 405"
      "CONFIDENCE_SCORE: 40" = true ∧
    (parseAiResponse "VERIFICATION_STATUS: FALSE CONFIDENCE_SCORE: 405"
      "2025-01-01 00:00:00").status = .FALSE ∧
    (parseAiResponse "VERIFICATION_STATUS: FALSE CONFIDENCE_SCORE: 405"
      "2025-01-01 00:00:00").confidence = 405 ∧
    (parseAiResponse "VERIFICATION_STATUS: FALSE CONFIDENCE_SCORE: 405"
      "2025-01-01 00:00:00").confidence ≠ 80 := by
  decide

/-- C5, witness for the amended claim at a reply whose first match
extracts exactly 40. -/
theorem C5_witness :
    extractConfidence "VERIFICATION_STATUS: FALSE CONFIDENCE_SCORE: 40" =
      some 40 ∧
    (parseAiResponse "VERIFICATION_STATUS: FALSE CONFIDENCE_SCORE: 40"
      "2025-01-01 00:00:00").status = .FALSE ∧
    (parseAiResponse "VERIFICATION_STATUS: FALSE CONFIDENCE_SCORE: 40"
      "2025-01-01 00:00:00").confidence = 80 :=
  ⟨by decide,
    (C5_false_extracted_40_floor "VERIFICATION_STATUS: FALSE CONFIDENCE_SCORE: 40"
      "2025-01-01 00:00:00" (by decide) (by decide) (by decide)).1,
    (C5_false_extracted_40_floor "VERIFICATION_STATUS: FALSE CONFIDENCE_SCORE: 40"
      "2025-01-01 00:00:00" (by decide) (by decide) (by decide)).2⟩

/-- C7 (corrected).  When the engine is not ready, `verify_news` returns
the error verdict without consulting the model, and every ERROR verdict
it produces has confidence 0, empty sources and success false — but its
analysis field is `"❌ AI engine not ready"` (the message prefixed with
`"❌ "` by `_create_error_response`), not the bare string
`"AI engine not ready"` the claim states (see `C7_counterexample`). -/
theorem C7_not_ready_short_circuit (claim now : String) :
    (∀ m₁ m₂ : String → ModelOutcome,
      verifyNews false claim m₁ now = verifyNews false claim m₂ now) ∧
    (∀ m : String → ModelOutcome,
      verifyNews false claim m now = createErrorResponse "AI engine not ready" now) ∧
    (∀ (ready : Bool) (m : String → ModelOutcome),
      (verifyNews ready claim m now).status = .ERROR →
        (verifyNews ready claim m now).confidence = 0 ∧
        (verifyNews ready claim m now).sources = [] ∧
        (verifyNews ready claim m now).success = false) := by
  refine ⟨fun m₁ m₂ => rfl, fun m => rfl, ?_⟩
  intro ready m h
  cases ready with
  | false => exact ⟨rfl, rfl, rfl⟩
  | true =>
    simp only [verifyNews, Bool.not_true, Bool.false_eq_true, if_false] at h ⊢
    cases hm : m (createAnalysisPrompt claim) with
    | failure e => exact ⟨rfl, rfl, rfl⟩
    | reply t' =>
      by_cases ht : t' = ""
      · subst ht
        exact ⟨rfl, rfl, rfl⟩
      · rw [hm] at h
        have h' : (if t' = "" then createErrorResponse "No response from AI" now
            else parseAiResponse t' now).status = .ERROR := h
        rw [if_neg ht] at h'
        exact absurd h' (parse_not_error t' now)

/-- C7, counterexample to the claim as stated: the analysis field of the
not-ready error verdict is `"❌ AI engine not ready"`, not
`"AI engine not ready"`. -/
theorem C7_counterexample :
    (verifyNews false "some claim" (fun _ => .reply "reply") "2025-01-01 00:00:00").analysis =
      "❌ AI engine not ready" ∧
    (verifyNews false "some claim" (fun _ => .reply "reply") "2025-01-01 00:00:00").analysis ≠
      "AI engine not ready" ∧
    (verifyNews false "some claim" (fun _ => .reply "reply") "2025-01-01 00:00:00").status =
      .ERROR := by
  decide

/-- C7, witness: a ready-engine model failure also yields an ERROR
verdict with confidence 0, empty sources, success false. -/
theorem C7_witness :
    (verifyNews true "some claim" (fun _ => .failure "boom") "2025-01-01 00:00:00").status =
      .ERROR ∧
    (verifyNews true "some claim" (fun _ => .failure "boom") "2025-01-01 00:00:00").confidence = 0 ∧
    (verifyNews true "some claim" (fun _ => .failure "boom") "2025-01-01 00:00:00").sources = [] ∧
    (verifyNews true "some claim" (fun _ => .failure "boom") "2025-01-01 00:00:00").success = false :=
  ⟨by decide,
    (C7_not_ready_short_circuit "some claim" "2025-01-01 00:00:00").2.2
      true (fun _ => .failure "boom") (by decide)⟩

/-- C8 (corrected).  A URL without an `http(s)://` scheme never causes a
network request; but a URL that is empty or all-whitespace is silently
skipped by `if url and url.strip():` without the validation warning the
claim requires for every non-`http(s)` string (see `C8_counterexample`).
Amended: for every url not starting with `http://` or `https://` no
network call is performed, and the validation-error path is taken
whenever the url is additionally nonempty after stripping. -/
theorem C8_invalid_url_no_network (url : String) (oracle : FetchOracle)
    (h1 : strStarts url "http://" = false)
    (h2 : strStarts url "https://" = false) :
    (renderUrlExtraction url oracle).2 = false ∧
    (url.data.all isSpaceChar = false →
      renderUrlExtraction url oracle = (.invalidUrl, false)) := by
  cases hb : url.data.all isSpaceChar with
  | true => simp [renderUrlExtraction, hb]
  | false => simp [renderUrlExtraction, hb, h1, h2]

/-- C8, counterexample to the claim as stated: an all-whitespace url
does not start with `http(s)://` yet is silently ignored (no validation
error), though indeed without a network call. -/
theorem C8_counterexample :
    strStarts " " "http://" = false ∧
    strStarts " " "https://" = false ∧
    (renderUrlExtraction " " ⟨"", ""⟩).1 = .noInput ∧
    (renderUrlExtraction " " ⟨"", ""⟩).1 ≠ .invalidUrl ∧
    (renderUrlExtraction " " ⟨"", ""⟩).2 = false := by
  decide

/-- C8, witness for the amended claim at a non-http url. -/
theorem C8_witness :
    (renderUrlExtraction "ftp://example.com" ⟨"", ""⟩).2 = false ∧
    renderUrlExtraction "ftp://example.com" ⟨"", ""⟩ = (.invalidUrl, false) :=
  ⟨(C8_invalid_url_no_network "ftp://example.com" ⟨"", ""⟩ (by decide) (by decide)).1,
    (C8_invalid_url_no_network "ftp://example.com" ⟨"", ""⟩ (by decide) (by decide)).2
      (by decide)⟩

/-- C9 (corrected).  As stated the claim is false at the boundary: an
empty final extracted text (length 0 ≤ 80) takes the separate
"could not extract meaningful text" error path, not the too-short error
(see `C9_counterexample`).  Amended: a nonempty extracted text of length
≤ 80 fails with the too-short error; an empty one fails with the
no-meaningful-text error; otherwise the text handed to the classifier is
the extraction truncated to 2500 characters, so every successful result
has length in (80, 2500]. -/
theorem C9_extraction_length_validation (extracted : String) :
    (extracted ≠ "" → extracted.length ≤ 80 →
      processExtractedText extracted = .tooShort) ∧
    (extracted = "" → processExtractedText extracted = .emptyText) ∧
    (80 < extracted.length →
      processExtractedText extracted = .ok (takeChars extracted 2500)) ∧
    (∀ s, processExtractedText extracted = .ok s →
      80 < s.length ∧ s.length ≤ 2500) := by
  unfold processExtractedText
  by_cases he : extracted = ""
  · subst he
    simp
  · rw [if_neg he]
    by_cases hl : 80 < extracted.length
    · rw [if_pos hl]
      refine ⟨fun _ hle => absurd hl (by omega), fun hh => absurd hh he,
        fun _ => rfl, ?_⟩
      intro s hs
      have hss : s = takeChars extracted 2500 := by
        cases hs
        rfl
      have hlen : s.length = min 2500 extracted.length := by
        rw [hss]
        show (extracted.data.take 2500).length = _
        exact List.length_take _ _
      omega
    · rw [if_neg hl]
      refine ⟨fun _ _ => rfl, fun hh => absurd hh he,
        fun hh => absurd hh hl, fun s hs => by cases hs⟩

/-- C9, counterexample to the claim as stated: an empty extracted text
has length ≤ 80 but takes the no-meaningful-text error path, not the
too-short one. -/
theorem C9_counterexample :
    ("" : String).length ≤ 80 ∧
    processExtractedText "" = .emptyText ∧
    processExtractedText "" ≠ .tooShort ∧
    (renderUrlExtraction "http://example.com/a" ⟨"", ""⟩).1 = .emptyText := by
  decide

/-- C9, witness: a 50-character extraction fails too-short, and a
100-character extraction succeeds with its text within (80, 2500]. -/
theorem C9_witness :
    processExtractedText (String.mk (List.replicate 50 'a')) = .tooShort ∧
    processExtractedText (String.mk (List.replicate 100 'a')) =
      .ok (takeChars (String.mk (List.replicate 100 'a')) 2500) :=
  ⟨(C9_extraction_length_validation (String.mk (List.replicate 50 'a'))).1
      (by decide) (by decide),
    (C9_extraction_length_validation (String.mk (List.replicate 100 'a'))).2.2.1
      (by decide)⟩

/-- C10 (confirmed).  At the "Ensure logical confidence ranges" step,
whenever the status is UNVERIFIED the reconciled confidence is already
≤ 50 (the seeds are 30/50 and the pre-clamp caps at 50), so the branch
`status = UNVERIFIED and confidence > 50 → confidence = 30` never fires:
applying the floors is the identity there, and the final confidence is
the reconciled one. -/
theorem C10_unverified_branch_unreachable (t now : String)
    (h : (seedStatusConf t).1 = .UNVERIFIED) :
    reconcile .UNVERIFIED (seedStatusConf t).2 t ≤ 50 ∧
    applyFloors .UNVERIFIED (reconcile .UNVERIFIED (seedStatusConf t).2 t) =
      reconcile .UNVERIFIED (seedStatusConf t).2 t ∧
    (parseAiResponse t now).confidence =
      reconcile .UNVERIFIED (seedStatusConf t).2 t := by
  have hseed2 : (seedStatusConf t).2 ≤ 50 := by
    rcases seed_cases t with hh | hh | hh | hh | hh <;> rw [hh] at h ⊢ <;>
      first
        | exact absurd h (by decide)
        | decide
  have hle := reconcile_unverified_le t _ hseed2
  refine ⟨hle, applyFloors_unverified_id _ hle, ?_⟩
  rw [parse_conf, h]
  exact applyFloors_unverified_id _ hle

/-- C10, witness: an UNVERIFIED reply with an over-50 extracted score is
pre-clamped to 50, keeping the branch condition false. -/
theorem C10_witness :
    (seedStatusConf "VERIFICATION_STATUS: UNVERIFIED CONFIDENCE_SCORE: 77").1 =
      .UNVERIFIED ∧
    reconcile .UNVERIFIED
      (seedStatusConf "VERIFICATION_STATUS: UNVERIFIED CONFIDENCE_SCORE: 77").2
      "VERIFICATION_STATUS: UNVERIFIED CONFIDENCE_SCORE: 77" ≤ 50 :=
  ⟨by decide,
    (C10_unverified_branch_unreachable
      "VERIFICATION_STATUS: UNVERIFIED CONFIDENCE_SCORE: 77"
      "2025-01-01 00:00:00" (by decide)).1⟩

end FakeNews
